import Mathlib

/-!
Verification of the metrics-sidecar admission decision engine.

The admission core lives in `pkg/handlers/health.go` (`HealthHandler.ServeHTTP`,
`collectResourceMetrics`, `calcPodsRatio`, `calcMemoryPercent`, `calcCPUPercent`).
Go `float64` percentages and thresholds are modelled as exact rationals (ℚ);
`int32`/`int64` counters as ℤ.  The process-wide mutable flag `shouldRandomize`
(`true` = the spec's UNLOCKED state, `false` = LOCKED_REJECT) is threaded
explicitly: the pure core of one evaluation takes the flag before the call and
returns the flag after it.  The random draw `rng.Float64() * 100` is passed as
a parameter `randomValue`; its range [0, 100) becomes a hypothesis where needed.
-/

namespace MetricsSidecar

/-- The threshold fields of `Config` (pkg/config/config.go).  The remaining
fields (namespace, deployment, container, pod identifiers, kubeconfig, port)
identify cluster objects and transport and do not enter the decision logic. -/
structure Config where
  resourceThresholdMemoryPercent : ℚ
  resourceThresholdCPUPercent : ℚ
  minimumPodsToKeepPercent : ℚ
  deriving Repr, DecidableEq

/-- `ResourceMetrics` (pkg/metrics/metrics.go): the snapshot consumed by one
health evaluation.  Go zero values are `0` and `false`. -/
structure ResourceMetrics where
  deploymentReplicas : ℤ
  deploymentAvailableReplicas : ℤ
  containerName : String
  containerCPULimit : ℤ
  containerMemLimit : ℤ
  containerReady : Bool
  containerCPUUsage : ℤ
  containerMemUsage : ℤ
  deriving Repr, DecidableEq

/-- `calcPodsRatio` (health.go): available replicas over declared replicas,
as a percentage; `0` when the declared replica count is `<= 0`. -/
def calcPodsRatio (m : ResourceMetrics) : ℚ :=
  if m.deploymentReplicas ≤ 0 then 0
  else (m.deploymentAvailableReplicas : ℚ) / (m.deploymentReplicas : ℚ) * 100

/-- `calcMemoryPercent` (health.go): memory usage over the memory limit, as a
percentage; `0` when the limit is `<= 0`. -/
def calcMemoryPercent (m : ResourceMetrics) : ℚ :=
  if m.containerMemLimit ≤ 0 then 0
  else (m.containerMemUsage : ℚ) / (m.containerMemLimit : ℚ) * 100

/-- `calcCPUPercent` (health.go): CPU usage over the CPU limit, as a
percentage; `0` when the limit is `<= 0`. -/
def calcCPUPercent (m : ResourceMetrics) : ℚ :=
  if m.containerCPULimit ≤ 0 then 0
  else (m.containerCPUUsage : ℚ) / (m.containerCPULimit : ℚ) * 100

/-- The five status labels written into the response body by
`HealthHandler.ServeHTTP`. -/
inductive HealthStatus
  | HEALTHY
  | NOT_READY
  | POD_SHORTAGE
  | RESOURCE_EXHAUSTED
  | RESOURCE_OVERLOADED_BUT_KEEPING
  deriving Repr, DecidableEq

/-- The spec's UNLOCKED sticky state is `shouldRandomize = true` in the code. -/
def UNLOCKED : Bool := true

/-- The spec's LOCKED_REJECT sticky state is `shouldRandomize = false`. -/
def LOCKED_REJECT : Bool := false

/-- The overload condition computed at health.go line 122:
memory percent strictly above the memory threshold AND CPU percent strictly
above the CPU threshold. -/
def overloadedCond (cfg : Config) (m : ResourceMetrics) : Prop :=
  calcMemoryPercent m > cfg.resourceThresholdMemoryPercent ∧
    calcCPUPercent m > cfg.resourceThresholdCPUPercent

instance (cfg : Config) (m : ResourceMetrics) : Decidable (overloadedCond cfg m) := by
  unfold overloadedCond; infer_instance

/-- The pure decision core of `HealthHandler.ServeHTTP` (health.go lines
82-176), given a successfully collected snapshot.  Arguments: the static
thresholds, the snapshot, the value of the package-level `shouldRandomize`
flag before the call, and `randomValue = rng.Float64() * 100`.  Result:
the status label, the HTTP status code passed to `WriteHeader` (200 =
`http.StatusOK`, 400 = `http.StatusBadRequest`), and the value of
`shouldRandomize` after the call. -/
def serveHTTPEval (cfg : Config) (m : ResourceMetrics) (shouldRandomize : Bool)
    (randomValue : ℚ) : HealthStatus × ℕ × Bool :=
  if !m.containerReady then
    (HealthStatus.NOT_READY, 200, shouldRandomize)
  else
    let podsRatio := calcPodsRatio m
    if podsRatio < cfg.minimumPodsToKeepPercent then
      (HealthStatus.POD_SHORTAGE, 200, shouldRandomize)
    else
      if overloadedCond cfg m then
        if shouldRandomize then
          if randomValue > cfg.minimumPodsToKeepPercent then
            (HealthStatus.RESOURCE_EXHAUSTED, 400, false)
          else
            (HealthStatus.RESOURCE_OVERLOADED_BUT_KEEPING, 200, true)
        else
          (HealthStatus.RESOURCE_EXHAUSTED, 400, false)
      else
        (HealthStatus.HEALTHY, 200, true)

/-- `DeploymentMetrics` (pkg/metrics/metrics.go), the fields used by the
snapshot builder. -/
structure DeploymentInfo where
  replicas : ℤ
  availableReplicas : ℤ
  deriving Repr, DecidableEq

/-- `ContainerLimits` (pkg/metrics/metrics.go). -/
structure ContainerLimits where
  cpuLimit : ℤ
  memLimit : ℤ
  deriving Repr, DecidableEq

/-- The per-container usage fields of `ContainerMetrics`
(pkg/metrics/metrics.go). -/
structure ContainerUsage where
  cpuUsage : ℤ
  memUsage : ℤ
  deriving Repr, DecidableEq

/-- `HealthHandler.collectResourceMetrics` (health.go lines 179-244).  Each
argument is the outcome of one external call (`none` = the call failed, or the
monitored container was absent from the reply).  The snapshot starts zero
valued; a failed deployment query leaves the replica fields `0`, a failed pod
query leaves readiness `false`, a failed usage query leaves usage `0`, and all
three are tolerated.  Only a failed container-limits lookup aborts collection
(`none`). -/
def collectResourceMetrics (name : String) (deploymentInfo : Option DeploymentInfo)
    (containerLimits : Option ContainerLimits) (podReady : Option Bool)
    (podUsage : Option ContainerUsage) : Option ResourceMetrics :=
  match containerLimits with
  | none => none
  | some lim =>
    some
      { deploymentReplicas := (deploymentInfo.map (fun d => d.replicas)).getD 0
        deploymentAvailableReplicas :=
          (deploymentInfo.map (fun d => d.availableReplicas)).getD 0
        containerName := name
        containerCPULimit := lim.cpuLimit
        containerMemLimit := lim.memLimit
        containerReady := podReady.getD false
        containerCPUUsage := (podUsage.map (fun u => u.cpuUsage)).getD 0
        containerMemUsage := (podUsage.map (fun u => u.memUsage)).getD 0 }

/-- The wire layer of `HealthHandler.ServeHTTP`: when snapshot collection
fails the handler writes 503 (`http.StatusServiceUnavailable`) and returns
without evaluating (no status label, flag untouched); otherwise it runs the
decision core. -/
def serveHTTP (cfg : Config) (collected : Option ResourceMetrics)
    (shouldRandomize : Bool) (randomValue : ℚ) : Option HealthStatus × ℕ × Bool :=
  match collected with
  | none => (none, 503, shouldRandomize)
  | some m =>
    let r := serveHTTPEval cfg m shouldRandomize randomValue
    (some r.1, r.2.1, r.2.2)

/-- `MetricsHandler.ServeHTTP` (pkg/handlers/metrics.go): collection failure
gives 503, otherwise the raw snapshot is encoded verbatim with the default
200 code.  The handler never touches `shouldRandomize` or the random source,
so the flag after the call equals the flag before it by construction. -/
def metricsServeHTTP (collected : Option ResourceMetrics) (shouldRandomize : Bool) :
    (ℕ × Option ResourceMetrics) × Bool :=
  match collected with
  | none => ((503, none), shouldRandomize)
  | some m => ((200, some m), shouldRandomize)

/-- Modelled from the spec: the `accept` field of the Admission Verdict
(section 3 and section 4.2 of the spec).  `RESOURCE_EXHAUSTED` is the only
reject verdict; `HEALTHY`, `NOT_READY`, `POD_SHORTAGE` and
`RESOURCE_OVERLOADED_BUT_KEEPING` accept.  The code has no explicit accept
flag; it encodes acceptance directly as the wire status code, so this
spec-side definition is compared against the code's status codes. -/
def specAccept : HealthStatus → Bool
  | HealthStatus.RESOURCE_EXHAUSTED => false
  | _ => true

/-!
Fine-grained access model for the concurrency requirement.  `ServeHTTP` runs
on one goroutine per request; the package-level `shouldRandomize` flag is
read at health.go line 128 and written at lines 134 and 163 with no mutex,
atomic, or channel anywhere in the package.  To reason about what the
unguarded code admits, the overloaded-UNLOCKED path of one evaluation is
split into its two accesses to the shared flag: the read (line 128) and the
draw-then-conditional-write (lines 130-134).  A schedule interleaves these
atomic accesses of two concurrent evaluations.
-/

/-- The per-goroutine local data of one in-flight overloaded evaluation:
the value of `shouldRandomize` it read (line 128), if it has read yet, and
whether it has executed the draw `rng.Float64() * 100` (line 130). -/
structure GoroutineView where
  observed : Option Bool
  drew : Bool
  deriving Repr, DecidableEq

/-- Shared flag plus the local views of two concurrent evaluations. -/
structure RaceState where
  shouldRandomize : Bool
  g1 : GoroutineView
  g2 : GoroutineView
  deriving Repr, DecidableEq

/-- Which of the two concurrent health evaluations acts. -/
inductive GoroutineId
  | one
  | two
  deriving Repr, DecidableEq

/-- An atomic access to the shared state inside the overloaded branch:
`readFlag` is the read of `shouldRandomize` at line 128; `drawWrite` is the
draw at line 130 followed by the conditional write `shouldRandomize = false`
at line 134 (taken only when the goroutine had observed `true` and its draw
exceeds the threshold). -/
inductive RaceAction
  | readFlag
  | drawWrite
  deriving Repr, DecidableEq

/-- One interleaving step of the unguarded code: goroutine `g` performs
action `a`; `r1`, `r2` are the values the two goroutines would draw. -/
def raceStep (threshold r1 r2 : ℚ) (s : RaceState) : GoroutineId × RaceAction → RaceState
  | (GoroutineId.one, RaceAction.readFlag) =>
    { s with g1 := { s.g1 with observed := some s.shouldRandomize } }
  | (GoroutineId.two, RaceAction.readFlag) =>
    { s with g2 := { s.g2 with observed := some s.shouldRandomize } }
  | (GoroutineId.one, RaceAction.drawWrite) =>
    match s.g1.observed with
    | some true =>
      let s1 := { s with g1 := { s.g1 with drew := true } }
      if r1 > threshold then { s1 with shouldRandomize := false } else s1
    | _ => s
  | (GoroutineId.two, RaceAction.drawWrite) =>
    match s.g2.observed with
    | some true =>
      let s2 := { s with g2 := { s.g2 with drew := true } }
      if r2 > threshold then { s2 with shouldRandomize := false } else s2
    | _ => s

/-- Run a schedule of interleaved atomic accesses. -/
def raceRun (threshold r1 r2 : ℚ) (s : RaceState) (sched : List (GoroutineId × RaceAction)) : RaceState :=
  sched.foldl (raceStep threshold r1 r2) s

/-- The initial state for two concurrent evaluations arriving while the
sticky flag is UNLOCKED. -/
def raceInit : RaceState :=
  { shouldRandomize := true, g1 := ⟨none, false⟩, g2 := ⟨none, false⟩ }

/-- The interleaving in which both goroutines read the flag before either
writes it. -/
def bothReadFirst : List (GoroutineId × RaceAction) :=
  [(GoroutineId.one, RaceAction.readFlag), (GoroutineId.two, RaceAction.readFlag),
   (GoroutineId.one, RaceAction.drawWrite), (GoroutineId.two, RaceAction.drawWrite)]

/-!
Concrete inputs used by witnesses, taken from the config defaults
(config.go: memory threshold 80, CPU threshold 80, minimum pods 50) and the
spec's scenario snapshots.
-/

/-- The default thresholds from config.go. -/
def cfg0 : Config := ⟨80, 80, 50⟩

/-- Scenario A: limits 1000m / 1000MB, usage 500m / 500MB, replicas 10/10,
ready. -/
def healthySnap : ResourceMetrics := ⟨10, 10, "app", 1000, 1000, true, 500, 500⟩

/-- Scenario B/C: usage 900m / 900MB against limits 1000m / 1000MB,
replicas 10/10, ready: both resources over the 80 thresholds. -/
def overSnap : ResourceMetrics := ⟨10, 10, "app", 1000, 1000, true, 900, 900⟩

/-- Scenario D: replicas 2 of 10 available (20 percent, below the minimum 50)
while both resources are over threshold. -/
def shortageSnap : ResourceMetrics := ⟨10, 2, "app", 1000, 1000, true, 900, 900⟩

/-- An overloaded snapshot whose container is not ready. -/
def notReadySnap : ResourceMetrics := ⟨10, 10, "app", 1000, 1000, false, 900, 900⟩

/-- Only CPU breaches its threshold; memory is at 50 percent. -/
def cpuOnlySnap : ResourceMetrics := ⟨10, 10, "app", 1000, 1000, true, 900, 500⟩

/-- All three denominators are zero. -/
def zeroDenomSnap : ResourceMetrics := ⟨0, 5, "app", 0, 0, true, 7, 7⟩

/-- Usage above limits and more available replicas than declared: every
ratio is above 100. -/
def above100Snap : ResourceMetrics := ⟨2, 5, "app", 100, 100, true, 250, 250⟩

/-- C6: for every snapshot with containerReady = false, the evaluation returns
NOT_READY with the success wire code 200 (accept = true) and leaves the sticky
flag exactly as it was, regardless of the prior state and of every other
snapshot field. -/
theorem c6_not_ready_accepts (cfg : Config) (m : ResourceMetrics) (b : Bool) (r : ℚ)
    (hready : m.containerReady = false) :
    serveHTTPEval cfg m b r = (HealthStatus.NOT_READY, 200, b) := by
  simp [serveHTTPEval, hready]

theorem c6_witness :
    notReadySnap.containerReady = false ∧
      serveHTTPEval cfg0 notReadySnap LOCKED_REJECT 70 =
        (HealthStatus.NOT_READY, 200, LOCKED_REJECT) :=
  ⟨rfl, c6_not_ready_accepts cfg0 notReadySnap LOCKED_REJECT 70 rfl⟩

/-- C5: for every snapshot with a ready container and available-replica
percentage strictly below the minimum, the evaluation returns POD_SHORTAGE with
the success wire code 200 (accept = true) and leaves the sticky flag unchanged;
since no condition on CPU or memory usage appears, the shortage guard takes
precedence over the overload test. -/
theorem c5_shortage_guard (cfg : Config) (m : ResourceMetrics) (b : Bool) (r : ℚ)
    (hready : m.containerReady = true)
    (hshort : calcPodsRatio m < cfg.minimumPodsToKeepPercent) :
    serveHTTPEval cfg m b r = (HealthStatus.POD_SHORTAGE, 200, b) := by
  simp [serveHTTPEval, hready, hshort]

theorem c5_witness :
    overloadedCond cfg0 shortageSnap ∧
      calcPodsRatio shortageSnap < cfg0.minimumPodsToKeepPercent ∧
      serveHTTPEval cfg0 shortageSnap LOCKED_REJECT 70 =
        (HealthStatus.POD_SHORTAGE, 200, LOCKED_REJECT) :=
  ⟨by norm_num [overloadedCond, calcMemoryPercent, calcCPUPercent, cfg0, shortageSnap],
   by norm_num [calcPodsRatio, cfg0, shortageSnap],
   c5_shortage_guard cfg0 shortageSnap LOCKED_REJECT 70 rfl
     (by norm_num [calcPodsRatio, cfg0, shortageSnap])⟩

/-- C1: for every evaluation with a ready container, available percentage not
below the minimum, the overload condition true and the sticky flag UNLOCKED,
the draw r (taken from [0, 100)) decides the verdict: r strictly above
minimumPodsToKeepPercent locks the flag (LOCKED_REJECT) and returns
RESOURCE_EXHAUSTED with wire code 400 (accept = false); otherwise the flag
stays UNLOCKED and the verdict is RESOURCE_OVERLOADED_BUT_KEEPING with wire
code 200 (accept = true). -/
theorem c1_first_draw (cfg : Config) (m : ResourceMetrics) (r : ℚ)
    (hready : m.containerReady = true)
    (havail : ¬ calcPodsRatio m < cfg.minimumPodsToKeepPercent)
    (hover : overloadedCond cfg m) (_hr0 : 0 ≤ r) (_hr1 : r < 100) :
    (r > cfg.minimumPodsToKeepPercent →
       serveHTTPEval cfg m UNLOCKED r = (HealthStatus.RESOURCE_EXHAUSTED, 400, LOCKED_REJECT)) ∧
    (r ≤ cfg.minimumPodsToKeepPercent →
       serveHTTPEval cfg m UNLOCKED r =
         (HealthStatus.RESOURCE_OVERLOADED_BUT_KEEPING, 200, UNLOCKED)) := by
  refine ⟨fun hcmp => ?_, fun hcmp => ?_⟩
  · simp [serveHTTPEval, UNLOCKED, LOCKED_REJECT, hready, havail, hover, hcmp]
  · simp [serveHTTPEval, UNLOCKED, LOCKED_REJECT, hready, havail, hover, not_lt.mpr hcmp]

theorem c1_witness :
    (¬ calcPodsRatio overSnap < cfg0.minimumPodsToKeepPercent ∧ overloadedCond cfg0 overSnap ∧
       (0 : ℚ) ≤ 70 ∧ (70 : ℚ) < 100 ∧ (70 : ℚ) > cfg0.minimumPodsToKeepPercent ∧
       serveHTTPEval cfg0 overSnap UNLOCKED 70 =
         (HealthStatus.RESOURCE_EXHAUSTED, 400, LOCKED_REJECT)) ∧
    ((30 : ℚ) ≤ cfg0.minimumPodsToKeepPercent ∧
       serveHTTPEval cfg0 overSnap UNLOCKED 30 =
         (HealthStatus.RESOURCE_OVERLOADED_BUT_KEEPING, 200, UNLOCKED)) :=
  ⟨⟨by norm_num [calcPodsRatio, cfg0, overSnap],
    by norm_num [overloadedCond, calcMemoryPercent, calcCPUPercent, cfg0, overSnap],
    by norm_num, by norm_num, by norm_num [cfg0],
    (c1_first_draw cfg0 overSnap 70 rfl (by norm_num [calcPodsRatio, cfg0, overSnap])
        (by norm_num [overloadedCond, calcMemoryPercent, calcCPUPercent, cfg0, overSnap])
        (by norm_num) (by norm_num)).1 (by norm_num [cfg0])⟩,
   ⟨by norm_num [cfg0],
    (c1_first_draw cfg0 overSnap 30 rfl (by norm_num [calcPodsRatio, cfg0, overSnap])
        (by norm_num [overloadedCond, calcMemoryPercent, calcCPUPercent, cfg0, overSnap])
        (by norm_num) (by norm_num)).2 (by norm_num [cfg0])⟩⟩

/-- C3: for every evaluation reaching the overload test (ready container,
available percentage not below the minimum), the verdict differs from HEALTHY
exactly when CPU percent strictly exceeds the CPU threshold AND memory percent
strictly exceeds the memory threshold; a single-resource breach is not
overloaded, and whenever the conjunction fails the sticky flag is reset to
UNLOCKED and the verdict is HEALTHY with wire code 200 (accept = true). -/
theorem c3_overload_test (cfg : Config) (m : ResourceMetrics) (b : Bool) (r : ℚ)
    (hready : m.containerReady = true)
    (havail : ¬ calcPodsRatio m < cfg.minimumPodsToKeepPercent) :
    ((serveHTTPEval cfg m b r).1 ≠ HealthStatus.HEALTHY ↔
       (calcCPUPercent m > cfg.resourceThresholdCPUPercent ∧
        calcMemoryPercent m > cfg.resourceThresholdMemoryPercent)) ∧
    (¬ (calcCPUPercent m > cfg.resourceThresholdCPUPercent ∧
        calcMemoryPercent m > cfg.resourceThresholdMemoryPercent) →
       serveHTTPEval cfg m b r = (HealthStatus.HEALTHY, 200, UNLOCKED)) := by
  by_cases hover : overloadedCond cfg m
  · refine ⟨⟨fun _ => ⟨hover.2, hover.1⟩, fun _ => ?_⟩,
      fun hc => absurd ⟨hover.2, hover.1⟩ hc⟩
    simp only [serveHTTPEval, hready, havail, hover]
    split_ifs <;> simp
  · have hc : ¬ (calcCPUPercent m > cfg.resourceThresholdCPUPercent ∧
        calcMemoryPercent m > cfg.resourceThresholdMemoryPercent) :=
      fun h => hover ⟨h.2, h.1⟩
    have heval : serveHTTPEval cfg m b r = (HealthStatus.HEALTHY, 200, UNLOCKED) := by
      simp [serveHTTPEval, UNLOCKED, hready, havail, hover]
    refine ⟨⟨fun hne => absurd (by rw [heval]) hne, fun h => absurd h hc⟩, fun _ => heval⟩

theorem c3_witness :
    cpuOnlySnap.containerReady = true ∧
      ¬ calcPodsRatio cpuOnlySnap < cfg0.minimumPodsToKeepPercent ∧
      calcCPUPercent cpuOnlySnap > cfg0.resourceThresholdCPUPercent ∧
      ¬ calcMemoryPercent cpuOnlySnap > cfg0.resourceThresholdMemoryPercent ∧
      serveHTTPEval cfg0 cpuOnlySnap LOCKED_REJECT 70 = (HealthStatus.HEALTHY, 200, UNLOCKED) :=
  ⟨rfl, by norm_num [calcPodsRatio, cfg0, cpuOnlySnap],
   by norm_num [calcCPUPercent, cfg0, cpuOnlySnap],
   by norm_num [calcMemoryPercent, cfg0, cpuOnlySnap],
   (c3_overload_test cfg0 cpuOnlySnap LOCKED_REJECT 70 rfl
       (by norm_num [calcPodsRatio, cfg0, cpuOnlySnap])).2
     (by norm_num [calcMemoryPercent, cfg0, cpuOnlySnap])⟩

/-- C2: sticky-state machine invariant for one evaluation: the flag moves from
UNLOCKED to LOCKED_REJECT only when the snapshot satisfies the overload
condition, and from LOCKED_REJECT to UNLOCKED only when it does not; and while
the flag is LOCKED_REJECT, an evaluation whose snapshot reaches the overload
test and is overloaded returns RESOURCE_EXHAUSTED with wire code 400
(accept = false) and keeps the flag LOCKED_REJECT, for every value of the
random parameter — the result is a constant in r, so the random source is not
consulted. -/
theorem c2_sticky_invariant (cfg : Config) (m : ResourceMetrics) (b : Bool) (r : ℚ) :
    ((b = UNLOCKED ∧ (serveHTTPEval cfg m b r).2.2 = LOCKED_REJECT) → overloadedCond cfg m) ∧
    ((b = LOCKED_REJECT ∧ (serveHTTPEval cfg m b r).2.2 = UNLOCKED) → ¬ overloadedCond cfg m) ∧
    (b = LOCKED_REJECT → m.containerReady = true →
       ¬ calcPodsRatio m < cfg.minimumPodsToKeepPercent → overloadedCond cfg m →
       serveHTTPEval cfg m b r = (HealthStatus.RESOURCE_EXHAUSTED, 400, LOCKED_REJECT)) := by
  simp only [serveHTTPEval, UNLOCKED, LOCKED_REJECT]
  split_ifs <;> simp_all

theorem c2_witness :
    (LOCKED_REJECT = LOCKED_REJECT ∧ overSnap.containerReady = true ∧
       ¬ calcPodsRatio overSnap < cfg0.minimumPodsToKeepPercent ∧
       overloadedCond cfg0 overSnap) ∧
      serveHTTPEval cfg0 overSnap LOCKED_REJECT 30 =
        (HealthStatus.RESOURCE_EXHAUSTED, 400, LOCKED_REJECT) :=
  ⟨⟨rfl, rfl, by norm_num [calcPodsRatio, cfg0, overSnap],
    by norm_num [overloadedCond, calcMemoryPercent, calcCPUPercent, cfg0, overSnap]⟩,
   (c2_sticky_invariant cfg0 overSnap LOCKED_REJECT 30).2.2 rfl rfl
     (by norm_num [calcPodsRatio, cfg0, overSnap])
     (by norm_num [overloadedCond, calcMemoryPercent, calcCPUPercent, cfg0, overSnap])⟩

/-- C7: the three ratio calculators are total functions on ℚ (so no division
by zero or NaN can arise): each returns exactly 0 when its denominator (the
corresponding limit, or the declared replica count) is at most 0, and
otherwise returns usage divided by the limit times 100 with no clamping; the
final conjunct exhibits a snapshot on which all three results exceed 100. -/
theorem c7_ratio_calculators (m : ResourceMetrics) :
    (m.deploymentReplicas ≤ 0 → calcPodsRatio m = 0) ∧
    (0 < m.deploymentReplicas →
       calcPodsRatio m = (m.deploymentAvailableReplicas : ℚ) / (m.deploymentReplicas : ℚ) * 100) ∧
    (m.containerMemLimit ≤ 0 → calcMemoryPercent m = 0) ∧
    (0 < m.containerMemLimit →
       calcMemoryPercent m = (m.containerMemUsage : ℚ) / (m.containerMemLimit : ℚ) * 100) ∧
    (m.containerCPULimit ≤ 0 → calcCPUPercent m = 0) ∧
    (0 < m.containerCPULimit →
       calcCPUPercent m = (m.containerCPUUsage : ℚ) / (m.containerCPULimit : ℚ) * 100) ∧
    (calcPodsRatio above100Snap > 100 ∧ calcMemoryPercent above100Snap > 100 ∧
       calcCPUPercent above100Snap > 100) :=
  ⟨fun h => by simp [calcPodsRatio, h],
   fun h => by simp [calcPodsRatio, not_le.mpr h],
   fun h => by simp [calcMemoryPercent, h],
   fun h => by simp [calcMemoryPercent, not_le.mpr h],
   fun h => by simp [calcCPUPercent, h],
   fun h => by simp [calcCPUPercent, not_le.mpr h],
   by norm_num [calcPodsRatio, calcMemoryPercent, calcCPUPercent, above100Snap]⟩

theorem c7_witness :
    (zeroDenomSnap.deploymentReplicas ≤ 0 ∧ zeroDenomSnap.containerMemLimit ≤ 0 ∧
       zeroDenomSnap.containerCPULimit ≤ 0) ∧
      calcPodsRatio zeroDenomSnap = 0 ∧ calcMemoryPercent zeroDenomSnap = 0 ∧
      calcCPUPercent zeroDenomSnap = 0 :=
  ⟨⟨by norm_num [zeroDenomSnap], by norm_num [zeroDenomSnap], by norm_num [zeroDenomSnap]⟩,
   (c7_ratio_calculators zeroDenomSnap).1 (by norm_num [zeroDenomSnap]),
   (c7_ratio_calculators zeroDenomSnap).2.2.1 (by norm_num [zeroDenomSnap]),
   (c7_ratio_calculators zeroDenomSnap).2.2.2.2.1 (by norm_num [zeroDenomSnap])⟩

/-- C8: collection fails exactly when the mandatory container-limits lookup
fails, in which case the handler answers 503 without running the decision core
and without touching the sticky flag; when collection succeeds, the wire code
is 200 exactly for the accepting verdicts and 400 for the rejecting one
(specAccept is the spec's accept field), and the code is never the
service-unavailable 503. -/
theorem c8_wire_mapping (cfg : Config) (m : ResourceMetrics) (b : Bool) (r : ℚ)
    (name : String) (dep : Option DeploymentInfo) (pod : Option Bool)
    (usage : Option ContainerUsage) :
    collectResourceMetrics name dep none pod usage = none ∧
    serveHTTP cfg none b r = (none, 503, b) ∧
    (serveHTTP cfg (some m) b r).2.1 =
      (if specAccept (serveHTTPEval cfg m b r).1 then 200 else 400) ∧
    (serveHTTP cfg (some m) b r).2.1 ≠ 503 := by
  refine ⟨rfl, rfl, ?_, ?_⟩ <;>
  · simp only [serveHTTP, serveHTTPEval]
    split_ifs <;> simp_all [specAccept]

theorem c8_witness :
    serveHTTP cfg0 none UNLOCKED 0 = (none, 503, UNLOCKED) :=
  (c8_wire_mapping cfg0 overSnap UNLOCKED 0 "app" none none none).2.1

/-- C9: the metrics endpoint returns the collected snapshot verbatim (503 on
collection failure), never runs the decision core, and returns the sticky
flag exactly as it received it; the handler takes no random parameter at all,
so the random source is also untouched. -/
theorem c9_metrics_frame (collected : Option ResourceMetrics) (b : Bool)
    (m : ResourceMetrics) :
    (metricsServeHTTP collected b).2 = b ∧
    metricsServeHTTP (some m) b = ((200, some m), b) ∧
    metricsServeHTTP none b = ((503, none), b) := by
  cases collected <;> simp [metricsServeHTTP]

/-- C10: when the deployment-replica query fails, the snapshot keeps its
zero-valued replica fields, availablePercent evaluates to 0, and — for any
configuration with a positive minimum and a ready container — the evaluation
returns POD_SHORTAGE with wire code 200 (accept = true) and leaves the sticky
flag unchanged, so the overload test and any rejection are never reached. -/
theorem c10_replica_fetch_failure (cfg : Config) (b : Bool) (r : ℚ) (name : String)
    (lim : ContainerLimits) (usage : Option ContainerUsage)
    (hmin : 0 < cfg.minimumPodsToKeepPercent) :
    ∃ m, collectResourceMetrics name none (some lim) (some true) usage = some m ∧
      m.deploymentReplicas = 0 ∧ calcPodsRatio m = 0 ∧
      serveHTTPEval cfg m b r = (HealthStatus.POD_SHORTAGE, 200, b) := by
  refine ⟨_, rfl, rfl, ?_, ?_⟩
  · simp [calcPodsRatio, collectResourceMetrics]
  · simp [serveHTTPEval, collectResourceMetrics, calcPodsRatio, hmin]

theorem c10_witness :
    (0 : ℚ) < cfg0.minimumPodsToKeepPercent ∧
    ∃ m, collectResourceMetrics "app" none (some ⟨1000, 1000⟩) (some true)
        (some ⟨900, 900⟩) = some m ∧
      m.deploymentReplicas = 0 ∧ calcPodsRatio m = 0 ∧
      serveHTTPEval cfg0 m LOCKED_REJECT 70 = (HealthStatus.POD_SHORTAGE, 200, LOCKED_REJECT) :=
  ⟨by norm_num [cfg0],
   c10_replica_fetch_failure cfg0 LOCKED_REJECT 70 "app" ⟨1000, 1000⟩
     (some ⟨900, 900⟩) (by norm_num [cfg0])⟩

/-- C4: the code does not serialize access to the sticky flag and the random
source (no mutex, atomic, or channel exists in pkg/handlers), and the
interleaving model built from its two shared-flag accesses admits exactly the
outcome the claim says serialization must prevent: with threshold 50 and both
draws 70, the schedule in which both goroutines read before either writes ends
with both having observed UNLOCKED and both having drawn. -/
theorem c4_unserialized_double_draw :
    (raceRun 50 70 70 raceInit bothReadFirst).g1.observed = some true ∧
    (raceRun 50 70 70 raceInit bothReadFirst).g2.observed = some true ∧
    (raceRun 50 70 70 raceInit bothReadFirst).g1.drew = true ∧
    (raceRun 50 70 70 raceInit bothReadFirst).g2.drew = true := by
  norm_num [raceRun, raceStep, raceInit, bothReadFirst]

end MetricsSidecar
